import Mathlib

/-
Shallow embedding of the universal-mcp-client core:
  src/universal-mcp-client/src/lib/oidc-manager.ts   (UniversalOIDCManager)
  src/universal-mcp-client/src/lib/mcp-client.ts     (MCPClient)
  src/universal-mcp-client/src/contexts/ServerContext.tsx (addServer)
JavaScript Maps are modelled as ordered association lists (insertion order
preserved, unique keys); localStorage is modelled by its parsed contents:
the two aggregate keys mcp_tokens / mcp_server_configs as association
lists, and the per-server namespaced oauth-library keys as a string map.
-/

set_option autoImplicit false

deriving instance DecidableEq for Except

/-- JS String.prototype.startsWith, on the character-sequence view. -/
def strStartsWith (s pre : String) : Bool :=
  pre.data.isPrefixOf s.data

/-- JS String.prototype.substring(n) — drop the first n characters. -/
def strDrop (s : String) (n : Nat) : String :=
  ⟨s.data.drop n⟩

/-- JS String.prototype.split(sep) for a one-character separator. -/
def jsSplit (sep : Char) (s : String) : List String :=
  (s.data.splitOn sep).map (fun cs => ⟨cs⟩)

/-- Helper for strIncludes: does sub occur as a prefix of some tail of l? -/
def infixAux (sub : List Char) : List Char → Bool
  | [] => sub.isPrefixOf []
  | c :: cs => sub.isPrefixOf (c :: cs) || infixAux sub cs

/-- JS String.prototype.includes. -/
def strIncludes (s sub : String) : Bool :=
  infixAux sub.data s.data

/-- Mirrors the user_info field of TokenInfo in src/types/mcp.ts. -/
structure UserInfo where
  email : String
  name : String
  sub : String
deriving DecidableEq, Repr

/-- Mirrors TokenInfo in src/types/mcp.ts: expires_at is in epoch seconds. -/
structure TokenInfo where
  id_token : String
  access_token : Option String
  expires_at : Nat
  user_info : UserInfo
deriving DecidableEq, Repr

/-- Mirrors OIDCConfig in src/types/mcp.ts. -/
structure OIDCConfig where
  issuer : String
  clientId : String
  scopes : List String
  redirectUri : Option String
deriving DecidableEq, Repr

/-- Server status union type from src/types/mcp.ts. -/
inductive ServerStatus where
  | connected
  | disconnected
  | error
deriving DecidableEq, Repr

/-- Mirrors MCPTool in src/types/mcp.ts (the JSON-valued inputSchema is
reduced to its type string; no claim inspects it). -/
structure MCPTool where
  name : String
  description : String
  inputSchemaType : String
deriving DecidableEq, Repr

/-- Mirrors MCPServer in src/types/mcp.ts. -/
structure MCPServer where
  id : String
  name : String
  description : String
  url : String
  oidc : OIDCConfig
  status : ServerStatus
  tools : Option (List MCPTool)
deriving DecidableEq, Repr

/-- JS Map.delete modelled on an association list (unique keys): remove
every pair whose key is k. -/
def eraseKey {α : Type} (k : String) (l : List (String × α)) : List (String × α) :=
  l.filter (fun p => p.1 != k)

/-- JS Map.set modelled on an association list: replace in place when the
key is present (insertion order kept), otherwise append. -/
def setKey {α : Type} (k : String) (v : α) (l : List (String × α)) : List (String × α) :=
  if l.any (fun p => p.1 == k) then l.map (fun p => if p.1 == k then (k, v) else p)
  else l ++ [(k, v)]

/-- State of a UniversalOIDCManager instance together with the browser
storage it owns (src/lib/oidc-manager.ts).
  clients        — ids holding a UserManager, in Map insertion order
  tokens         — the in-memory token Map
  serverConfigs  — the in-memory config Map
  hint           — sessionStorage key mcp_auth_server_id
  storageOidc    — localStorage keys written by the oauth library under
                   the per-server namespaces (key, value)
  storageTokens  — parsed content of localStorage key mcp_tokens
  storageConfigs — parsed content of localStorage key mcp_server_configs -/
structure OIDCState where
  clients : List String
  tokens : List (String × TokenInfo)
  serverConfigs : List (String × MCPServer)
  hint : Option String
  storageOidc : List (String × String)
  storageTokens : List (String × TokenInfo)
  storageConfigs : List (String × MCPServer)
deriving DecidableEq, Repr

/-- The two CustomEvents dispatched on window (oidc-manager.ts lines 249, 259). -/
inductive OIDCEvent where
  | tokenUpdated (serverId : String)
  | tokenRemoved (serverId : String)
deriving DecidableEq, Repr

namespace UniversalOIDCManager

/-- saveTokensToStorage (oidc-manager.ts lines 264-270): serialize the
in-memory token map into localStorage key mcp_tokens. -/
def saveTokensToStorage (st : OIDCState) : OIDCState :=
  { st with storageTokens := st.tokens }

/-- saveServerConfigsToStorage (lines 289-299): serialize the in-memory
config map into localStorage key mcp_server_configs. -/
def saveServerConfigsToStorage (st : OIDCState) : OIDCState :=
  { st with storageConfigs := st.serverConfigs }

/-- handleTokenUpdate (lines 229-252): store the token, persist the token
map, dispatch oidc:token-updated. -/
def handleTokenUpdate (serverId : String) (tok : TokenInfo) (st : OIDCState) :
    OIDCState × List OIDCEvent :=
  (saveTokensToStorage { st with tokens := setKey serverId tok st.tokens },
   [OIDCEvent.tokenUpdated serverId])

/-- handleTokenRemoved (lines 254-262): delete the token, persist the token
map, dispatch oidc:token-removed. -/
def handleTokenRemoved (serverId : String) (st : OIDCState) :
    OIDCState × List OIDCEvent :=
  (saveTokensToStorage { st with tokens := eraseKey serverId st.tokens },
   [OIDCEvent.tokenRemoved serverId])

/-- addServer (lines 17-73): record the config, persist the config map,
install a UserManager keyed by the server id, then probe for an existing
live user (client.getUser()); a live non-expired user — passed here as
the oracle argument restored — is treated as user-loaded. -/
def addServer (restored : Option TokenInfo) (server : MCPServer) (st : OIDCState) :
    OIDCState × List OIDCEvent :=
  let st1 := saveServerConfigsToStorage
    { st with serverConfigs := setKey server.id server st.serverConfigs }
  let st2 := { st1 with clients :=
    if st1.clients.contains server.id then st1.clients else st1.clients ++ [server.id] }
  match restored with
  | some tok => handleTokenUpdate server.id tok st2
  | none => (st2, [])

/-- isAuthenticated (lines 180-183): a pure read of the token Map; true
exactly when a record exists and Date.now() (milliseconds) is strictly
below expires_at * 1000. -/
def isAuthenticated (st : OIDCState) (serverId : String) (now : Nat) : Bool :=
  match st.tokens.lookup serverId with
  | some token => now < token.expires_at * 1000
  | none => false

/-- getIdToken (lines 188-191): token?.id_token || null — no expiry check;
an empty id_token string is falsy and becomes null. -/
def getIdToken (st : OIDCState) (serverId : String) : Option String :=
  match st.tokens.lookup serverId with
  | some token => if token.id_token = "" then none else some token.id_token
  | none => none

/-- getTokenInfo (lines 173-175). -/
def getTokenInfo (st : OIDCState) (serverId : String) : Option TokenInfo :=
  st.tokens.lookup serverId

/-- removeServer (lines 196-218): drop the client, the in-memory token and
the in-memory config; persist the config map (saveServerConfigsToStorage);
delete every localStorage key starting with oidc_<serverId>_.
The token map is NOT re-persisted here — storageTokens is untouched. -/
def removeServer (serverId : String) (st : OIDCState) : OIDCState :=
  let st1 := { st with
    clients := st.clients.filter (fun c => c != serverId),
    tokens := eraseKey serverId st.tokens,
    serverConfigs := eraseKey serverId st.serverConfigs }
  let st2 := saveServerConfigsToStorage st1
  { st2 with storageOidc :=
      st2.storageOidc.filter (fun p => !(strStartsWith p.1 ("oidc_" ++ serverId ++ "_"))) }

/-- ensureClient (lines 137-150): return the in-memory client, or recreate
it via addServer from the persisted config map; then look the id up again. -/
def ensureClient (restored : Option TokenInfo) (serverId : String) (st : OIDCState) :
    Option String × OIDCState × List OIDCEvent :=
  if st.clients.contains serverId then (some serverId, st, [])
  else
    match st.serverConfigs.lookup serverId with
    | some cfg =>
        let (st1, evs) := addServer restored cfg st
        (if st1.clients.contains serverId then some serverId else none, st1, evs)
    | none => (none, st, [])

/-- The session-resolution portion of handleCallback (lines 97-123):
take the caller-supplied id if present, else consume the sessionStorage
hint; ensure that client exists (lazily recreating it); if none was found,
fall back to the first client in the Map; throw only when no client at all
could be produced. Returns the id of the session whose
signinRedirectCallback will be invoked. -/
def resolveCallbackClient (callerId : Option String) (restored : Option TokenInfo)
    (st : OIDCState) : Except String (String × OIDCState × List OIDCEvent) :=
  let step1 : Option String × OIDCState :=
    match callerId with
    | some sid => (some sid, st)
    | none =>
      match st.hint with
      | some sid => (some sid, { st with hint := none })
      | none => (none, st)
  let step2 : Option String × OIDCState × List OIDCEvent :=
    match step1.1 with
    | some sid => ensureClient restored sid step1.2
    | none => (none, step1.2, [])
  match step2.1 with
  | some c => Except.ok (c, step2.2.1, step2.2.2)
  | none =>
    match step2.2.1.clients.head? with
    | some c => Except.ok (c, step2.2.1, step2.2.2)
    | none => Except.error "No OIDC client found for callback"

/-- Result of signOut: err holds the rethrown message on failure; the state
and the dispatched events are returned explicitly. -/
structure SignOutResult where
  err : Option String
  state : OIDCState
  events : List OIDCEvent
deriving DecidableEq, Repr

/-- signOut (lines 155-168): throws when no client exists; otherwise awaits
client.signoutRedirect() — whose success is the oracle redirectOk — and
only after it succeeds runs handleTokenRemoved; a redirect failure is
rethrown with the token map and storage untouched and no event fired. -/
def signOut (redirectOk : Bool) (serverId : String) (st : OIDCState) : SignOutResult :=
  if st.clients.contains serverId then
    if redirectOk then
      let (st1, evs) := handleTokenRemoved serverId st
      ⟨none, st1, evs⟩
    else ⟨some ("Sign out failed for server " ++ serverId), st, []⟩
  else ⟨some ("No OIDC client found for server: " ++ serverId), st, []⟩

end UniversalOIDCManager

/-- The typed error taxonomy of spec section 7, mapped onto the concrete
throws of the source (which throws Error with characteristic messages). -/
inductive MCPErr where
  | configurationError (messages : List String)
  | missingTokenError (serverName : String)
  | callbackError
  | authenticationError
  | transportError (status : Nat)
  | protocolError (message : String)
  | rpcError (code : Int) (message : String)
deriving DecidableEq, Repr

/-- An HTTP POST issued by MCPClient.makeRequest (mcp-client.ts lines
188-196): the endpoint URL, the bearer token placed in the Authorization
header, and the JSON-RPC method of the payload. -/
structure HTTPRequest where
  url : String
  bearer : String
  rpcMethod : String
deriving DecidableEq, Repr

/-- The six fixed-method operations of MCPClient (mcp-client.ts). -/
inductive MCPOp where
  | initOp
  | listToolsOp
  | callToolOp
  | listResourcesOp
  | readResourceOp
  | listPromptsOp
deriving DecidableEq, Repr

namespace MCPClient

open UniversalOIDCManager

/-- The JSON-RPC method string each operation sends (mcp-client.ts lines
26, 53, 76, 102, 125, 150). -/
def methodOf : MCPOp → String
  | MCPOp.initOp => "initialize"
  | MCPOp.listToolsOp => "tools/list"
  | MCPOp.callToolOp => "tools/call"
  | MCPOp.listResourcesOp => "resources/list"
  | MCPOp.readResourceOp => "resources/read"
  | MCPOp.listPromptsOp => "prompts/list"

/-- The shared prologue of initialize / listTools / callTool /
listResources / readResource / listPrompts (e.g. lines 44-55): look up the
id token via oidcManager.getIdToken; if null, throw the
no-authentication-token error before any network activity; otherwise issue
exactly one HTTP POST to server.url carrying the token as a bearer. -/
def opRequest (op : MCPOp) (st : OIDCState) (server : MCPServer) :
    Except MCPErr HTTPRequest :=
  match getIdToken st server.id with
  | none => Except.error (MCPErr.missingTokenError server.name)
  | some tok => Except.ok ⟨server.url, tok, methodOf op⟩

/-- Number of HTTP requests an operation issues (fetch is called once on
the non-throwing path, zero times when the token pre-check throws). -/
def opRequestCount (op : MCPOp) (st : OIDCState) (server : MCPServer) : Nat :=
  match opRequest op st server with
  | Except.error _ => 0
  | Except.ok _ => 1

/-- SSE branch of makeRequest (mcp-client.ts lines 220-232): split the body
on newlines, keep the lines starting with the string "data: ", throw the
no-data protocol error when there are none, else parse the last such line
with its first six characters removed. Returns the extracted JSON text. -/
def extractSSEData (text : String) : Except MCPErr String :=
  let lines := jsSplit '\n' text
  let dataLines := lines.filter (fun line => strStartsWith line "data: ")
  match dataLines.getLast? with
  | none => Except.error (MCPErr.protocolError "No data found in SSE response")
  | some line => Except.ok (strDrop line 6)

/-- Content-type dispatch of makeRequest (line 214):
contentType?.includes('text/event-stream'). -/
def isEventStream (contentType : String) : Bool :=
  strIncludes contentType "text/event-stream"

/-- Body handling of makeRequest (lines 211-236) at the framing level: an
event-stream body yields the payload of its last data line, any other body
is handed to the JSON parser whole. -/
def responseText (contentType : String) (body : String) : Except MCPErr String :=
  if isEventStream contentType then extractSSEData body
  else Except.ok body

/-- Result record of validateServerConfig (mcp-client.ts lines 286-289). -/
structure ValidationResult where
  valid : Bool
  errors : List String
deriving DecidableEq, Repr

/-- validateServerConfig (mcp-client.ts lines 259-290): run all six
structural checks in order, collecting every failure message; valid is
errors.length === 0. The environment's WHATWG URL parser (new URL)
backing isValidUrl is passed in as the oracle urlOk. -/
def validateServerConfig (urlOk : String → Bool) (server : MCPServer) : ValidationResult :=
  let errors : List String :=
    (if server.name.trim = "" then ["Server name is required"] else []) ++
    (if server.url = "" ∨ urlOk server.url = false then
      ["Valid server URL is required"] else []) ++
    (if server.oidc.issuer = "" ∨ urlOk server.oidc.issuer = false then
      ["Valid OIDC issuer URL is required"] else []) ++
    (if server.oidc.clientId.trim = "" then ["OIDC client ID is required"] else []) ++
    (if server.oidc.scopes = [] then ["OIDC scopes are required"] else []) ++
    (if server.oidc.scopes.contains "openid" = false then
      ["OIDC scopes must include \x22openid\x22"] else [])
  ⟨errors.isEmpty, errors⟩

end MCPClient

/-- State owned by the ServerContext provider (ServerContext.tsx): the
servers array in React state, the localStorage key mcp_servers, and the
shared oidcManager singleton. -/
structure CtxState where
  servers : List MCPServer
  storageServers : List MCPServer
  oidc : OIDCState
deriving DecidableEq, Repr

/-- Result of ServerContext.addServer: err holds the ConfigurationError
messages when validation rejected the descriptor. -/
structure AddResult where
  err : Option (List String)
  state : CtxState
  events : List OIDCEvent
deriving DecidableEq, Repr

namespace ServerContext

open UniversalOIDCManager

/-- ServerContext.addServer (ServerContext.tsx lines 99-123): validate via
mcpClient.validateServerConfig and throw before touching any state when
invalid; otherwise register with the OIDC manager, append the server with
status disconnected to React state and persist the mcp_servers key. -/
def addServer (urlOk : String → Bool) (restored : Option TokenInfo)
    (server : MCPServer) (st : CtxState) : AddResult :=
  let validation := MCPClient.validateServerConfig urlOk server
  if validation.valid = false then ⟨some validation.errors, st, []⟩
  else
    let (oidc1, evs) := UniversalOIDCManager.addServer restored server st.oidc
    let updated := st.servers ++ [{ server with status := ServerStatus.disconnected }]
    ⟨none, ⟨updated, updated, oidc1⟩, evs⟩

end ServerContext

/-! Concrete fixtures used by witnesses and counterexamples. Server ids
follow the shape the UI assigns (AddServerModal.tsx line 41:
id = server_ followed by a timestamp). -/

def userA : UserInfo := ⟨"a@example.com", "User A", "sub-a"⟩

/-- A token far from expiry (expires_at is epoch seconds). -/
def tokA : TokenInfo := ⟨"id-a", some "acc-a", 2000000000, userA⟩

/-- A token whose expiry has passed for any realistic clock. -/
def tokExp : TokenInfo := ⟨"id-exp", none, 1, userA⟩

def cfgOpenid : OIDCConfig :=
  ⟨"https://issuer.example", "client-1", ["openid", "email"], none⟩

def srvA : MCPServer :=
  ⟨"server_1", "Server A", "", "https://a.example/mcp", cfgOpenid,
   ServerStatus.disconnected, none⟩

def srvB : MCPServer :=
  ⟨"server_2", "Server B", "", "https://b.example/mcp", cfgOpenid,
   ServerStatus.disconnected, none⟩

/-- A descriptor whose scopes omit openid. -/
def srvNoOpenid : MCPServer :=
  ⟨"server_3", "Server C", "", "https://c.example/mcp",
   ⟨"https://issuer.example", "client-3", ["email", "profile"], none⟩,
   ServerStatus.disconnected, none⟩

def oidcEmpty : OIDCState := ⟨[], [], [], none, [], [], []⟩

def ctxEmpty : CtxState := ⟨[], [], oidcEmpty⟩

/-- Two registered, authenticated servers, fully persisted and in sync. -/
def oidcTwo : OIDCState :=
  ⟨["server_1", "server_2"],
   [("server_1", tokA), ("server_2", tokA)],
   [("server_1", srvA), ("server_2", srvB)],
   none,
   [("oidc_server_1_user", "u1"), ("oidc_server_2_user", "u2")],
   [("server_1", tokA), ("server_2", tokA)],
   [("server_1", srvA), ("server_2", srvB)]⟩

/-- One registered server whose id (server_1) has the unknown id server as
a proper underscore-prefix, as every id minted by the UI does. -/
def oidcOne : OIDCState :=
  ⟨["server_1"], [("server_1", tokA)], [("server_1", srvA)], none,
   [("oidc_server_1_user", "u1")], [("server_1", tokA)], [("server_1", srvA)]⟩

/-- Two sessions in memory, no pending-callback hint anywhere. -/
def oidcTwoBare : OIDCState := ⟨["server_1", "server_2"], [], [], none, [], [], []⟩

/-- Two sessions in memory and the sessionStorage pending-callback hint
pointing at the second one. -/
def oidcTwoHinted : OIDCState :=
  ⟨["server_1", "server_2"], [], [], some "server_2", [], [], []⟩

/-- One registered server whose cached token has already expired. -/
def oidcExpired : OIDCState :=
  ⟨["server_1"], [("server_1", tokExp)], [("server_1", srvA)], none,
   [], [("server_1", tokExp)], [("server_1", srvA)]⟩

/-- One registered server with a live session and cached token. -/
def oidcLive : OIDCState :=
  ⟨["server_1"], [("server_1", tokA)], [("server_1", srvA)], none,
   [("oidc_server_1_user", "u1")], [("server_1", tokA)], [("server_1", srvA)]⟩

/-- Deleting a key from an association list makes lookup of that key miss. -/
theorem lookup_eraseKey_self {α : Type} (k : String) (l : List (String × α)) :
    (eraseKey k l).lookup k = none := by
  induction l with
  | nil => rfl
  | cons p tl ih =>
    unfold eraseKey at *
    by_cases hp : p.1 = k
    · simp [List.filter_cons, hp, ih]
    · have hbeq : (k == p.1) = false := by simp [Ne.symm hp]
      simp [List.filter_cons, hp, List.lookup, hbeq, ih]

/-- C3: isAuthenticated(id) is true exactly when a token record for id is in
the cache and the current time (ms) is strictly before expires_at * 1000;
it is a pure read, so moving the clock past expiry flips it with no state
change and no deletion. -/
theorem c3_isAuthenticated_iff (st : OIDCState) (serverId : String) (now : Nat) :
    UniversalOIDCManager.isAuthenticated st serverId now = true ↔
      ∃ t, st.tokens.lookup serverId = some t ∧ now < t.expires_at * 1000 := by
  unfold UniversalOIDCManager.isAuthenticated
  cases h : st.tokens.lookup serverId with
  | none => simp
  | some t => simp [h]

/-- C8: validateServerConfig is a pure function of the descriptor (and the
ambient URL parser) and reports every violated rule at once: each of the
six messages is in the errors list exactly when its rule is violated, and
valid holds exactly when the list is empty. -/
theorem c8_validateServerConfig_complete (urlOk : String → Bool) (server : MCPServer) :
    ((MCPClient.validateServerConfig urlOk server).valid = true ↔
      (MCPClient.validateServerConfig urlOk server).errors = []) ∧
    ("Server name is required" ∈ (MCPClient.validateServerConfig urlOk server).errors ↔
      server.name.trim = "") ∧
    ("Valid server URL is required" ∈ (MCPClient.validateServerConfig urlOk server).errors ↔
      (server.url = "" ∨ urlOk server.url = false)) ∧
    ("Valid OIDC issuer URL is required" ∈ (MCPClient.validateServerConfig urlOk server).errors ↔
      (server.oidc.issuer = "" ∨ urlOk server.oidc.issuer = false)) ∧
    ("OIDC client ID is required" ∈ (MCPClient.validateServerConfig urlOk server).errors ↔
      server.oidc.clientId.trim = "") ∧
    ("OIDC scopes are required" ∈ (MCPClient.validateServerConfig urlOk server).errors ↔
      server.oidc.scopes = []) ∧
    ("OIDC scopes must include \x22openid\x22" ∈
        (MCPClient.validateServerConfig urlOk server).errors ↔
      "openid" ∉ server.oidc.scopes) := by
  simp only [MCPClient.validateServerConfig, List.isEmpty_iff, List.mem_append]
  split_ifs <;> simp_all

/-- Validation always fails when openid is missing from the scopes. -/
theorem validateServerConfig_no_openid (urlOk : String → Bool) (server : MCPServer)
    (h : "openid" ∉ server.oidc.scopes) :
    (MCPClient.validateServerConfig urlOk server).valid = false := by
  simp only [MCPClient.validateServerConfig]
  simp [h, List.isEmpty_iff]

/-- C7: ServerContext.addServer on a descriptor whose scopes omit openid
throws the configuration error before registering anything: the error is
present, the whole state (React servers array, mcp_servers key, OIDC
manager maps and storage) is unchanged, and no event fires. -/
theorem c7_missing_openid_rejected (urlOk : String → Bool) (restored : Option TokenInfo)
    (server : MCPServer) (st : CtxState) (h : "openid" ∉ server.oidc.scopes) :
    (ServerContext.addServer urlOk restored server st).err ≠ none ∧
    (ServerContext.addServer urlOk restored server st).state = st ∧
    (ServerContext.addServer urlOk restored server st).events = [] := by
  unfold ServerContext.addServer
  simp [validateServerConfig_no_openid urlOk server h]

/-- Witness for C7 at the descriptor with scopes email, profile. -/
theorem c7_missing_openid_witness :
    "openid" ∉ srvNoOpenid.oidc.scopes ∧
    ((ServerContext.addServer (fun _ => true) none srvNoOpenid ctxEmpty).err ≠ none ∧
     (ServerContext.addServer (fun _ => true) none srvNoOpenid ctxEmpty).state = ctxEmpty ∧
     (ServerContext.addServer (fun _ => true) none srvNoOpenid ctxEmpty).events = []) :=
  ⟨by decide, c7_missing_openid_rejected (fun _ => true) none srvNoOpenid ctxEmpty (by decide)⟩

/-- C1: removeServer("server_1") on a two-server state drops server_1's
namespaced key, its config-map entries (memory and persisted) and its
in-memory token, and leaves server_2 intact — but its entry in the
persisted mcp_tokens map survives, because removeServer never calls
saveTokensToStorage. This contradicts the claim that removal deletes the
server's entry in both aggregate persisted maps. -/
theorem c1_removeServer_leaves_persisted_token_entry :
    (UniversalOIDCManager.removeServer "server_1" oidcTwo).storageTokens.lookup "server_1" =
      some tokA ∧
    (UniversalOIDCManager.removeServer "server_1" oidcTwo).tokens.lookup "server_1" = none ∧
    (UniversalOIDCManager.removeServer "server_1" oidcTwo).serverConfigs.lookup "server_1" =
      none ∧
    (UniversalOIDCManager.removeServer "server_1" oidcTwo).storageConfigs.lookup "server_1" =
      none ∧
    (UniversalOIDCManager.removeServer "server_1" oidcTwo).storageOidc =
      [("oidc_server_2_user", "u2")] ∧
    (UniversalOIDCManager.removeServer "server_1" oidcTwo).storageTokens.lookup "server_2" =
      some tokA ∧
    (UniversalOIDCManager.removeServer "server_1" oidcTwo).storageConfigs.lookup "server_2" =
      some srvB := by decide

/-- C9 counterexample: the id server has no registered server, no token and
no session in oidcOne, yet removeServer("server") is not a no-op: the key
oidc_server_1_user starts with oidc_server_ and is deleted. -/
theorem c9_unknown_id_prefix_collision :
    (oidcOne.serverConfigs.lookup "server" = none ∧
     oidcOne.tokens.lookup "server" = none ∧
     oidcOne.clients.contains "server" = false) ∧
    UniversalOIDCManager.removeServer "server" oidcOne ≠ oidcOne := by decide

/-- C9 (amended): removeServer is idempotent — applying it twice to any
state equals applying it once — and removing an id with no session, no
token, no config entry is a no-op provided the persisted config map is in
sync with memory and no persisted namespaced key of another server starts
with oidc_<id>_ (which an id like server, a prefix of the generated
server_<timestamp> ids, violates). -/
theorem c9_removeServer_idempotent (st : OIDCState) (serverId : String) :
    UniversalOIDCManager.removeServer serverId
        (UniversalOIDCManager.removeServer serverId st) =
      UniversalOIDCManager.removeServer serverId st ∧
    (st.storageConfigs = st.serverConfigs →
     (∀ c ∈ st.clients, c ≠ serverId) →
     (∀ p ∈ st.tokens, p.1 ≠ serverId) →
     (∀ p ∈ st.serverConfigs, p.1 ≠ serverId) →
     (∀ p ∈ st.storageOidc,
        strStartsWith p.1 ("oidc_" ++ serverId ++ "_") = false) →
     UniversalOIDCManager.removeServer serverId st = st) := by
  constructor
  · simp [UniversalOIDCManager.removeServer,
      UniversalOIDCManager.saveServerConfigsToStorage, eraseKey,
      List.filter_filter]
  · intro h1 h2 h3 h4 h5
    unfold UniversalOIDCManager.removeServer
      UniversalOIDCManager.saveServerConfigsToStorage eraseKey
    cases st with
    | mk clients tokens serverConfigs hint storageOidc storageTokens storageConfigs =>
      simp_all [List.filter_eq_self]
      exact ⟨h3, h4, h5, h4⟩

/-- Witness for C9 at oidcOne with the non-colliding unknown id other. -/
theorem c9_removeServer_idempotent_witness :
    UniversalOIDCManager.removeServer "other"
        (UniversalOIDCManager.removeServer "other" oidcOne) =
      UniversalOIDCManager.removeServer "other" oidcOne ∧
    UniversalOIDCManager.removeServer "other" oidcOne = oidcOne :=
  ⟨(c9_removeServer_idempotent oidcOne "other").1,
   (c9_removeServer_idempotent oidcOne "other").2 (by decide) (by decide) (by decide)
     (by decide) (by decide)⟩

/-- C2 counterexample: with no caller-supplied id, no hint, and two sessions
in memory, handleCallback does not fail — it silently resolves to the first
session in the Map (server_1). -/
theorem c2_no_hint_two_sessions_resolves_first :
    UniversalOIDCManager.resolveCallbackClient none none oidcTwoBare =
      Except.ok ("server_1", oidcTwoBare, []) ∧
    UniversalOIDCManager.resolveCallbackClient none none oidcTwoBare ≠
      Except.error "No OIDC client found for callback" := by decide

/-- C2 (amended): a caller-supplied id whose session is in memory always
resolves to that session, whatever else is in memory; with no caller id,
the stored pending-callback hint, when present and naming an in-memory
session, is read, deleted and resolves to that session, again whatever
else is in memory; with neither a caller id nor a hint the router falls
back to the first session in the Map; it throws the no-client error only
when no session exists in memory at all. -/
theorem c2_callback_resolution (st : OIDCState) (restored : Option TokenInfo) :
    (∀ sid, sid ∈ st.clients →
      UniversalOIDCManager.resolveCallbackClient (some sid) restored st =
        Except.ok (sid, st, [])) ∧
    (∀ sid, st.hint = some sid → sid ∈ st.clients →
      UniversalOIDCManager.resolveCallbackClient none restored st =
        Except.ok (sid, { st with hint := none }, [])) ∧
    (st.hint = none → ∀ c, st.clients.head? = some c →
      UniversalOIDCManager.resolveCallbackClient none restored st =
        Except.ok (c, st, [])) ∧
    (st.hint = none → st.clients = [] →
      UniversalOIDCManager.resolveCallbackClient none restored st =
        Except.error "No OIDC client found for callback") := by
  refine ⟨?_, ?_, ?_, ?_⟩
  · intro sid h
    simp [UniversalOIDCManager.resolveCallbackClient, UniversalOIDCManager.ensureClient, h]
  · intro sid hh hm
    simp [UniversalOIDCManager.resolveCallbackClient, UniversalOIDCManager.ensureClient,
      hh, hm]
  · intro hh c hc
    simp [UniversalOIDCManager.resolveCallbackClient, hh, hc]
  · intro hh hc
    simp [UniversalOIDCManager.resolveCallbackClient, hh, hc]

/-- Witness for C2: the caller-supplied id wins over another in-memory
session; the stored hint, consumed on read, also wins over the first
session; the first-session fallback fires with both absent; the error
fires only with no session at all. -/
theorem c2_callback_resolution_witness :
    UniversalOIDCManager.resolveCallbackClient (some "server_2") none oidcTwoBare =
      Except.ok ("server_2", oidcTwoBare, []) ∧
    UniversalOIDCManager.resolveCallbackClient none none oidcTwoHinted =
      Except.ok ("server_2", oidcTwoBare, []) ∧
    UniversalOIDCManager.resolveCallbackClient none none oidcTwoBare =
      Except.ok ("server_1", oidcTwoBare, []) ∧
    UniversalOIDCManager.resolveCallbackClient none none oidcEmpty =
      Except.error "No OIDC client found for callback" :=
  ⟨(c2_callback_resolution oidcTwoBare none).1 "server_2" (by decide),
   (c2_callback_resolution oidcTwoHinted none).2.1 "server_2" rfl (by decide),
   (c2_callback_resolution oidcTwoBare none).2.2.1 rfl "server_1" rfl,
   (c2_callback_resolution oidcEmpty none).2.2.2 rfl rfl⟩

/-- C4 counterexample: with only an expired token cached for server_1,
isAuthenticated is false, yet listTools does not fail with the missing
token error — it issues one HTTP request carrying the expired id token. -/
theorem c4_expired_token_reaches_network :
    UniversalOIDCManager.isAuthenticated oidcExpired "server_1" 1000000 = false ∧
    MCPClient.opRequest MCPOp.listToolsOp oidcExpired srvA =
      Except.ok ⟨"https://a.example/mcp", "id-exp", "tools/list"⟩ ∧
    MCPClient.opRequestCount MCPOp.listToolsOp oidcExpired srvA = 1 := by decide

/-- C4 (amended): every protocol operation fails with the missing-token
error and issues zero HTTP requests when getIdToken yields nothing for the
server — that is, when no token record is cached (or its id token is the
empty string); token expiry is not part of this pre-check. -/
theorem c4_missing_token_fails_without_request (op : MCPOp) (st : OIDCState)
    (server : MCPServer)
    (h : UniversalOIDCManager.getIdToken st server.id = none) :
    MCPClient.opRequest op st server =
      Except.error (MCPErr.missingTokenError server.name) ∧
    MCPClient.opRequestCount op st server = 0 := by
  simp [MCPClient.opRequest, MCPClient.opRequestCount, h]

/-- Witness for C4 at the empty cache. -/
theorem c4_missing_token_witness :
    MCPClient.opRequest MCPOp.listToolsOp oidcEmpty srvA =
      Except.error (MCPErr.missingTokenError "Server A") ∧
    MCPClient.opRequestCount MCPOp.listToolsOp oidcEmpty srvA = 0 :=
  c4_missing_token_fails_without_request MCPOp.listToolsOp oidcEmpty srvA (by decide)

/-- C10: getIdToken never checks expiry: whenever a record with a non-empty
id token is cached for a server, even one whose expiry has passed (so that
isAuthenticated is false), getIdToken still returns the stored token and
every protocol operation proceeds to issue its HTTP request with it rather
than failing with the missing-token error. -/
theorem c10_getIdToken_ignores_expiry (st : OIDCState) (server : MCPServer)
    (t : TokenInfo) (now : Nat) (op : MCPOp)
    (hl : st.tokens.lookup server.id = some t)
    (hn : t.id_token ≠ "")
    (he : t.expires_at * 1000 ≤ now) :
    UniversalOIDCManager.isAuthenticated st server.id now = false ∧
    UniversalOIDCManager.getIdToken st server.id = some t.id_token ∧
    MCPClient.opRequest op st server =
      Except.ok ⟨server.url, t.id_token, MCPClient.methodOf op⟩ := by
  refine ⟨?_, ?_, ?_⟩
  · simp [UniversalOIDCManager.isAuthenticated, hl, Nat.not_lt.mpr he]
  · simp [UniversalOIDCManager.getIdToken, hl, hn]
  · simp [MCPClient.opRequest, UniversalOIDCManager.getIdToken, hl, hn]

/-- Witness for C10 at the expired-token state. -/
theorem c10_getIdToken_ignores_expiry_witness :
    UniversalOIDCManager.isAuthenticated oidcExpired "server_1" 1000000 = false ∧
    UniversalOIDCManager.getIdToken oidcExpired "server_1" = some "id-exp" ∧
    MCPClient.opRequest MCPOp.listToolsOp oidcExpired srvA =
      Except.ok ⟨"https://a.example/mcp", "id-exp", "tools/list"⟩ :=
  c10_getIdToken_ignores_expiry oidcExpired srvA tokExp 1000000 MCPOp.listToolsOp
    (by decide) (by decide) (by decide)

/-- C5: on any response whose content type indicates an event stream, the
result is taken from the payload of the last line prefixed by the string
"data: " — when the body's data lines are ds followed by a final l, the
parsed text is l with its six-character prefix removed, so of two data
lines only the second matters — and when the body holds no such line the
call fails with the no-data protocol error. -/
theorem c5_event_stream_last_data_line (contentType text : String)
    (hct : MCPClient.isEventStream contentType = true) :
    ((jsSplit '\n' text).filter (fun line => strStartsWith line "data: ") = [] →
      MCPClient.responseText contentType text =
        Except.error (MCPErr.protocolError "No data found in SSE response")) ∧
    (∀ ds l,
      (jsSplit '\n' text).filter (fun line => strStartsWith line "data: ") = ds ++ [l] →
      MCPClient.responseText contentType text = Except.ok (strDrop l 6)) := by
  constructor
  · intro h
    simp [MCPClient.responseText, hct, MCPClient.extractSSEData, h]
  · intro ds l h
    simp [MCPClient.responseText, hct, MCPClient.extractSSEData, h]

/-- Witness for C5: a two-data-line event-stream body parses to the second
payload. -/
theorem c5_event_stream_witness :
    MCPClient.responseText "text/event-stream" "data: first\ndata: second" =
      Except.ok "second" := by
  have h := (c5_event_stream_last_data_line "text/event-stream"
    "data: first\ndata: second" (by decide)).2 ["data: first"] "data: second" (by decide)
  simpa using h

/-- C6 counterexample: when the sign-out redirect fails, signOut rethrows
before handleTokenRemoved ever runs: the token record survives in memory
and in storage and no token-removed event fires. -/
theorem c6_redirect_failure_keeps_token :
    (UniversalOIDCManager.signOut false "server_1" oidcLive).err ≠ none ∧
    (UniversalOIDCManager.signOut false "server_1" oidcLive).state = oidcLive ∧
    (UniversalOIDCManager.signOut false "server_1" oidcLive).state.tokens.lookup
      "server_1" = some tokA ∧
    (UniversalOIDCManager.signOut false "server_1" oidcLive).events = [] := by decide

/-- C6 (amended): for a server with an existing session, signOut clears the
local token record (memory and persisted token map) and fires the
token-removed event when the identity-provider redirect succeeds; when the
redirect fails, the error is rethrown with the state untouched and no
event fired. -/
theorem c6_signOut_clears_only_on_success (st : OIDCState) (serverId : String)
    (h : serverId ∈ st.clients) :
    ((UniversalOIDCManager.signOut true serverId st).err = none ∧
     (UniversalOIDCManager.signOut true serverId st).state.tokens.lookup serverId =
       none ∧
     (UniversalOIDCManager.signOut true serverId st).state.storageTokens.lookup
       serverId = none ∧
     (UniversalOIDCManager.signOut true serverId st).events =
       [OIDCEvent.tokenRemoved serverId]) ∧
    ((UniversalOIDCManager.signOut false serverId st).err ≠ none ∧
     (UniversalOIDCManager.signOut false serverId st).state = st ∧
     (UniversalOIDCManager.signOut false serverId st).events = []) := by
  unfold UniversalOIDCManager.signOut UniversalOIDCManager.handleTokenRemoved
    UniversalOIDCManager.saveTokensToStorage
  simp [h, lookup_eraseKey_self]

/-- Witness for C6 at the live one-server state. -/
theorem c6_signOut_witness :
    ((UniversalOIDCManager.signOut true "server_1" oidcLive).err = none ∧
     (UniversalOIDCManager.signOut true "server_1" oidcLive).state.tokens.lookup
       "server_1" = none ∧
     (UniversalOIDCManager.signOut true "server_1" oidcLive).state.storageTokens.lookup
       "server_1" = none ∧
     (UniversalOIDCManager.signOut true "server_1" oidcLive).events =
       [OIDCEvent.tokenRemoved "server_1"]) ∧
    ((UniversalOIDCManager.signOut false "server_1" oidcLive).err ≠ none ∧
     (UniversalOIDCManager.signOut false "server_1" oidcLive).state = oidcLive ∧
     (UniversalOIDCManager.signOut false "server_1" oidcLive).events = []) :=
  c6_signOut_clears_only_on_success oidcLive "server_1" (by decide)
